import Mathlib

/-!
Verification of the Users/Tasks REST backend (`src/routes/users.js`,
`src/routes/tasks.js`) against its natural-language specification.

The two route modules are shallowly embedded as pure Lean functions: the
document store (MongoDB through Mongoose) is modelled as an explicit
`Db` value threaded through each handler, and every handler returns the
HTTP response it would send, the store state it leaves behind, and the
trace of store operations it attempted.  The external JSON library
(`JSON.parse`) and the store's interpretation of free-form filter /
sort / projection objects are out of scope for the repository ("external
collaborators" in the spec), so they enter the model as parameters.
-/

namespace S2P

/-- Mongoose casts a route `:id` string to an `ObjectId` only when it is a
24-character hexadecimal string; any other string raises a `CastError`
inside the store call.  (Mongoose also accepts 12-byte buffers, which can
never arrive through an HTTP path segment, so they are not modelled.) -/
def validId (s : String) : Bool :=
  s.length == 24 && s.toList.all (fun c =>
    c.isDigit || ('a' ≤ c && c ≤ 'f') || ('A' ≤ c && c ≤ 'F'))

/-- JavaScript truthiness of an optional string value: absent, `null` and
the empty string are falsy. -/
def truthyStr (o : Option String) : Bool :=
  match o with
  | none => false
  | some s => s != ""

/-- JavaScript truthiness of an optional number value: absent, `null` and
`0` are falsy. -/
def truthyNat (o : Option Nat) : Bool :=
  match o with
  | none => false
  | some n => n != 0

/-- JavaScript `parseInt` on a query-parameter string: leading whitespace
is skipped, an optional sign is read, then the longest prefix of decimal
digits; if that prefix is empty the result is `NaN`, modelled as `none`.
(The radix-prefix form `0x…` never appears in the claims and is not
modelled.) -/
def jsParseInt (s : String) : Option Int :=
  let cs := s.toList.dropWhile (fun c => c == ' ' || c == '\t' || c == '\n' || c == '\r')
  let signAndRest : Int × List Char :=
    match cs with
    | '-' :: rest => (-1, rest)
    | '+' :: rest => (1, rest)
    | _ => (1, cs)
  let digits := signAndRest.2.takeWhile Char.isDigit
  if digits.isEmpty then none
  else some (signAndRest.1 *
    Int.ofNat (digits.foldl (fun a c => a * 10 + (c.toNat - 48)) 0))

/-- A `users` collection document (schema fields per the data model:
`models/user.js` is not part of the sources, its fields and defaults are
those the spec's data-model section states). -/
structure User where
  id : String
  name : String
  email : String
  pendingTasks : List String
  dateCreated : Nat
deriving Repr, DecidableEq

/-- A `tasks` collection document (schema fields per the data model:
`models/task.js` is not part of the sources, its fields and defaults are
those the spec's data-model section states). -/
structure Task where
  id : String
  name : String
  deadline : Nat
  description : String
  completed : Bool
  assignedUser : String
  assignedUserName : String
deriving Repr, DecidableEq

/-- The document store's state: the two collections. -/
structure Db where
  users : List User
  tasks : List Task
deriving Repr, DecidableEq

/-- One store operation, as attempted by a handler (the trace records the
operation even when the store rejects it). -/
inductive StoreOp where
  | userSave (id : String)
  | userFindById (id : String)
  | userUpdate (id : String)
  | userPull (uid tid : String)
  | userPush (uid tid : String)
  | userDelete (id : String)
  | userFindList
  | userCount
  | taskSave (id : String)
  | taskFindById (id : String)
  | taskUpdate (id : String)
  | taskDelete (id : String)
  | taskUpdateManyUnassign (ids : List String)
  | taskFindList
  | taskCount
deriving Repr, DecidableEq

/-- The `data` field of the uniform response envelope. -/
inductive Payload where
  | user (u : User)
  | task (t : Task)
  | users (us : List User)
  | tasks (ts : List Task)
  | count (n : Nat)
  | empty
deriving Repr, DecidableEq

/-- The response envelope: HTTP status plus `\x7bmessage, data\x7d`
(`data: []` on error paths is modelled as `Payload.empty`). -/
structure Response where
  status : Nat
  message : String
  data : Payload
deriving Repr, DecidableEq

/-- What a handler produces: the response, the store state left behind,
and the trace of attempted store operations. -/
structure HResult where
  resp : Response
  db : Db
  ops : List StoreOp
deriving Repr, DecidableEq

/-- A parsed JSON query-parameter object.  The repository passes these
values straight to the store, whose query engine is an external
collaborator, so a parsed value is modelled by the interpretation the
store gives it: a filter predicate per collection, a sort permutation,
and a projection; `isEmpty` is `Object.keys(v).length == 0`. -/
structure JVal where
  isEmpty : Bool
  filterUser : User → Bool
  filterTask : Task → Bool
  sortUsers : List User → List User
  sortTasks : List Task → List Task
  projUser : User → User
  projTask : Task → Task

/-- The empty JSON object `\x7b\x7d`: matches every document, leaves
order and fields untouched. -/
def emptyJObj : JVal :=
  ⟨true, fun _ => true, fun _ => true, id, id, id, id⟩

/-- `req.query.p ? JSON.parse(req.query.p) : \x7b\x7d` for one of the
`where`/`sort`/`select` parameters: an absent or empty parameter gives
the empty object, a present one goes through `JSON.parse` (the external
`parse`), whose failure (`none`) the caller turns into HTTP 400. -/
def jparam (parse : String → Option JVal) (p : Option String) : Option JVal :=
  match p with
  | none => some emptyJObj
  | some s => if s == "" then some emptyJObj else parse s

/-- `req.query.p ? parseInt(req.query.p) : dflt` for `skip`/`limit`:
absent or empty gives the default, anything else goes through
`parseInt`, where `none` stands for `NaN`. -/
def numParam (p : Option String) (dflt : Int) : Option Int :=
  match p with
  | none => some dflt
  | some s => if s == "" then some dflt else jsParseInt s

/-- `if (skip) query = query.skip(skip)`: the skip stage is applied only
when the parsed value is truthy (`NaN` and `0` are falsy). -/
def applySkip (v : Option Int) (l : List α) : List α :=
  match v with
  | none => l
  | some n => if n == 0 then l else l.drop n.toNat

/-- `if (limit) query = query.limit(limit)`: the limit stage is applied
only when the parsed value is truthy (`NaN` and `0` are falsy). -/
def applyLimit (v : Option Int) (l : List α) : List α :=
  match v with
  | none => l
  | some n => if n == 0 then l else l.take n.toNat

/-- `User.findByIdAndUpdate(uid, \x7b $pull: \x7b pendingTasks: tid \x7d \x7d)`
once the id has been cast: removes every occurrence of `tid` from that
user's `pendingTasks`; a missing user is a silent no-op (the call
resolves to `null`). -/
def dbPullUser (uid tid : String) (db : Db) : Db :=
  { db with users := db.users.map (fun u =>
      if u.id == uid then { u with pendingTasks := u.pendingTasks.filter (fun s => s != tid) } else u) }

/-- `User.findByIdAndUpdate(uid, \x7b $push: \x7b pendingTasks: tid \x7d \x7d)`
once the id has been cast: appends `tid` to that user's `pendingTasks`;
a missing user is a silent no-op. -/
def dbPushUser (uid tid : String) (db : Db) : Db :=
  { db with users := db.users.map (fun u =>
      if u.id == uid then { u with pendingTasks := u.pendingTasks ++ [tid] } else u) }

/-- `Task.updateMany(\x7b _id: \x7b $in: ids \x7d \x7d, \x7b $set: \x7b
assignedUser: "", assignedUserName: "unassigned" \x7d \x7d)` once the ids
have been cast: every task whose id is listed is unassigned, whatever its
`completed` flag; all other tasks are untouched. -/
def dbUnassignTasks (ids : List String) (db : Db) : Db :=
  { db with tasks := db.tasks.map (fun t =>
      if ids.contains t.id then { t with assignedUser := "", assignedUserName := "unassigned" } else t) }

/-- `Task.findByIdAndUpdate(taskId, newBody)` merge: each field present in
the request body replaces the stored one (Mongoose treats a plain body as
a `$set` of the supplied fields). -/
structure TaskBody where
  name : Option String := none
  deadline : Option Nat := none
  description : Option String := none
  completed : Option Bool := none
  assignedUser : Option String := none
  assignedUserName : Option String := none
deriving Repr, DecidableEq

/-- Apply a partial task body to a stored task. -/
def applyTaskBody (b : TaskBody) (t : Task) : Task :=
  { t with
    name := b.name.getD t.name
    deadline := b.deadline.getD t.deadline
    description := b.description.getD t.description
    completed := b.completed.getD t.completed
    assignedUser := b.assignedUser.getD t.assignedUser
    assignedUserName := b.assignedUserName.getD t.assignedUserName }

/-- The update-time validation Mongoose runs for
`Task.findByIdAndUpdate(taskId, newBody, { runValidators: true })`
(`routes/tasks.js` lines 235-241): each path supplied by the body is
checked against the schema.  Per the data model the only constraint a
body of the modelled type can violate is `name`, a required non-empty
string (a supplied `deadline` of the modelled type always satisfies its
required-Date constraint, and the remaining fields carry no validator).
A violation rejects the update with a `ValidationError` before any
document is written. -/
def taskBodyValid (b : TaskBody) : Bool :=
  match b.name with
  | some s => s != ""
  | none => true

/-- A `PUT`/`POST /api/users` request body. -/
structure UserBody where
  name : Option String := none
  email : Option String := none
  pendingTasks : Option (List String) := none
deriving Repr, DecidableEq

/-- Apply a partial user body to a stored user
(`User.findByIdAndUpdate(id, req.body)`). -/
def applyUserBody (b : UserBody) (u : User) : User :=
  { u with
    name := b.name.getD u.name
    email := b.email.getD u.email
    pendingTasks := b.pendingTasks.getD u.pendingTasks }

/-- The user document built by `POST /api/users` (`routes/users.js` lines
34-41): `name` and `email` copied, `pendingTasks` copied exactly when the
body carries the field (a JavaScript array, even `[]`, is truthy),
otherwise the schema default `[]`; `dateCreated` set by the schema. -/
def mkUser (body : UserBody) (newId : String) (now : Nat) : User :=
  { id := newId
    name := body.name.getD ""
    email := body.email.getD ""
    pendingTasks := body.pendingTasks.getD []
    dateCreated := now }

/-- `POST /api/users` (`routes/users.js` lines 24-65).  Requires truthy
`name` and `email`; `save()` rejects a duplicate email with Mongo error
code 11000, mapped to HTTP 400; otherwise the document is persisted and
returned with HTTP 201.  `newId` and `now` stand for the store-generated
identifier and timestamp. -/
def postUsers (body : UserBody) (newId : String) (now : Nat) (db : Db) : HResult :=
  if !(truthyStr body.name && truthyStr body.email) then
    ⟨⟨400, "Validation Error: \'name\' and \'email\' are required fields.", .empty⟩, db, []⟩
  else
    let u := mkUser body newId now
    if db.users.any (fun v => v.email == u.email) then
      ⟨⟨400, "Email already exists.", .empty⟩, db, [.userSave newId]⟩
    else
      ⟨⟨201, "User created!", .user u⟩, { db with users := db.users ++ [u] }, [.userSave newId]⟩

/-- `GET /api/users` (`routes/users.js` lines 87-143).  The three JSON
parameters are parsed first; a failure of any returns HTTP 400 before any
store call.  `count=true` short-circuits to `countDocuments(where)`.
Otherwise the query pipeline is `find(where)` then `sort`/`select`
(objects are always truthy, so both stages always run) then `skip`/`limit`
guarded by truthiness of the parsed numbers; `limit` defaults to 0,
meaning no limit. -/
def getUsers (whereP sortP selectP skipP limitP countP : Option String)
    (parse : String → Option JVal) (db : Db) : HResult :=
  match jparam parse whereP, jparam parse sortP, jparam parse selectP with
  | some w, some srt, some sel =>
    if countP == some "true" then
      ⟨⟨200, "OK", .count (db.users.filter w.filterUser).length⟩, db, [.userCount]⟩
    else
      let l := applyLimit (numParam limitP 0)
        (applySkip (numParam skipP 0)
          ((srt.sortUsers (db.users.filter w.filterUser)).map sel.projUser))
      ⟨⟨200, "OK", .users l⟩, db, [.userFindList]⟩
  | _, _, _ =>
    ⟨⟨400, "Bad Request: Invalid JSON in \'where\', \'sort\', or \'select\' query parameter.", .empty⟩, db, []⟩

/-- `GET /api/users/:id` (`routes/users.js` lines 165-208).  A malformed
`select` returns HTTP 400 before the store call.  `findById` raises
`CastError` on a malformed id, which this handler's catch maps to HTTP
404 "User not found."; a cast-but-missing id also yields 404. -/
def getUserById (id : String) (selectP : Option String)
    (parse : String → Option JVal) (db : Db) : HResult :=
  match jparam parse selectP with
  | none =>
    ⟨⟨400, "Bad Request: Invalid JSON in \'select\' query parameter.", .empty⟩, db, []⟩
  | some sel =>
    if !validId id then
      ⟨⟨404, "User not found.", .empty⟩, db, [.userFindById id]⟩
    else
      match db.users.find? (fun u => u.id == id) with
      | none => ⟨⟨404, "User not found.", .empty⟩, db, [.userFindById id]⟩
      | some u =>
        ⟨⟨200, "OK", .user (if !sel.isEmpty then sel.projUser u else u)⟩, db, [.userFindById id]⟩

/-- `PUT /api/users/:id` (`routes/users.js` lines 229-272).  One
`findByIdAndUpdate` with the request body: `CastError` on a malformed id
falls to the generic 500 branch of the catch; a missing user yields 404;
a duplicate email (Mongo code 11000 from the unique index) yields 400;
otherwise the addressed document is replaced field-by-field and returned
with HTTP 200.  No other document is touched. -/
def putUserById (id : String) (body : UserBody) (db : Db) : HResult :=
  if !validId id then
    ⟨⟨500, "Server error.", .empty⟩, db, [.userUpdate id]⟩
  else
    match db.users.find? (fun u => u.id == id) with
    | none => ⟨⟨404, "User not found.", .empty⟩, db, [.userUpdate id]⟩
    | some u =>
      let u2 := applyUserBody body u
      if db.users.any (fun v => v.id != id && v.email == u2.email) then
        ⟨⟨400, "Email already exists.", .empty⟩, db, [.userUpdate id]⟩
      else
        ⟨⟨200, "User updated!", .user u2⟩,
          { db with users := db.users.map (fun v => if v.id == id then u2 else v) },
          [.userUpdate id]⟩

/-- `DELETE /api/users/:id` (`routes/users.js` lines 288-325).
`findByIdAndDelete`, 404 when nothing matches; then, when the deleted
user's `pendingTasks` is non-empty, one `Task.updateMany` over exactly
those ids sets `assignedUser` to `""` and `assignedUserName` to
`"unassigned"`.  A `CastError` — from a malformed `:id`, or from a
`pendingTasks` entry the `$in` filter cannot cast — reaches the single
catch and yields HTTP 500 (in the latter case the user is already
deleted). -/
def deleteUserById (id : String) (db : Db) : HResult :=
  if !validId id then
    ⟨⟨500, "Server error: Cast to ObjectId failed", .empty⟩, db, [.userDelete id]⟩
  else
    match db.users.find? (fun u => u.id == id) with
    | none => ⟨⟨404, "User not found.", .empty⟩, db, [.userDelete id]⟩
    | some u =>
      let db1 := { db with users := db.users.filter (fun v => v.id != id) }
      if u.pendingTasks.length > 0 then
        if u.pendingTasks.all validId then
          ⟨⟨200, "User deleted! All associated tasks have been unassigned.", .user u⟩,
            dbUnassignTasks u.pendingTasks db1,
            [.userDelete id, .taskUpdateManyUnassign u.pendingTasks]⟩
        else
          ⟨⟨500, "Server error: Cast to ObjectId failed", .empty⟩, db1,
            [.userDelete id, .taskUpdateManyUnassign u.pendingTasks]⟩
      else
        ⟨⟨200, "User deleted! All associated tasks have been unassigned.", .user u⟩,
          db1, [.userDelete id]⟩

/-- The task document built by `POST /api/tasks` (`routes/tasks.js` lines
37-44): `name` and `deadline` copied, the four optional fields copied
only when truthy, otherwise the schema defaults (`description` `""`,
`completed` `false`, `assignedUser` `""`, `assignedUserName`
`"unassigned"`). -/
def mkTask (body : TaskBody) (newId : String) : Task :=
  { id := newId
    name := body.name.getD ""
    deadline := body.deadline.getD 0
    description := if truthyStr body.description then body.description.getD "" else ""
    completed := body.completed.getD false
    assignedUser := if truthyStr body.assignedUser then body.assignedUser.getD "" else ""
    assignedUserName :=
      if truthyStr body.assignedUserName then body.assignedUserName.getD "" else "unassigned" }

/-- `POST /api/tasks` (`routes/tasks.js` lines 28-77).  Requires truthy
`name` and `deadline`.  After `save()`, when the saved task has a truthy
`assignedUser` and is not completed, the handler awaits a
`User.findByIdAndUpdate` `$push` of the new id — inside the same `try`,
so a rejection of that secondary write (a `CastError` on a malformed
user id, or any store failure, injected here as `pushFails`) falls into
the catch and is answered with HTTP 500 while the task stays persisted. -/
def postTasks (body : TaskBody) (newId : String) (pushFails : Bool) (db : Db) : HResult :=
  if !(truthyStr body.name && truthyNat body.deadline) then
    ⟨⟨400, "Validation Error: \'name\' and \'deadline\' are required fields.", .empty⟩, db, []⟩
  else
    let t := mkTask body newId
    let db1 := { db with tasks := db.tasks ++ [t] }
    if t.assignedUser != "" && !t.completed then
      if !validId t.assignedUser || pushFails then
        ⟨⟨500, "Server error.", .empty⟩, db1, [.taskSave newId, .userPush t.assignedUser newId]⟩
      else
        ⟨⟨201, "Task created!", .task t⟩, dbPushUser t.assignedUser newId db1,
          [.taskSave newId, .userPush t.assignedUser newId]⟩
    else
      ⟨⟨201, "Task created!", .task t⟩, db1, [.taskSave newId]⟩

/-- `GET /api/tasks` (`routes/tasks.js` lines 98-144).  Same pipeline as
`GET /api/users`, except that `limit` defaults to 100 when the parameter
is absent or empty. -/
def getTasks (whereP sortP selectP skipP limitP countP : Option String)
    (parse : String → Option JVal) (db : Db) : HResult :=
  match jparam parse whereP, jparam parse sortP, jparam parse selectP with
  | some w, some srt, some sel =>
    if countP == some "true" then
      ⟨⟨200, "OK", .count (db.tasks.filter w.filterTask).length⟩, db, [.taskCount]⟩
    else
      let l := applyLimit (numParam limitP 100)
        (applySkip (numParam skipP 0)
          ((srt.sortTasks (db.tasks.filter w.filterTask)).map sel.projTask))
      ⟨⟨200, "OK", .tasks l⟩, db, [.taskFindList]⟩
  | _, _, _ =>
    ⟨⟨400, "Bad Request: Invalid JSON in \'where\', \'sort\', or \'select\' query parameter.", .empty⟩, db, []⟩

/-- `GET /api/tasks/:id` (`routes/tasks.js` lines 166-203).  Same shape
as the user read, but this handler's catch has no `CastError` branch: a
malformed id falls through to HTTP 500 "Server error: …". -/
def getTaskById (id : String) (selectP : Option String)
    (parse : String → Option JVal) (db : Db) : HResult :=
  match jparam parse selectP with
  | none =>
    ⟨⟨400, "Bad Request: Invalid JSON in \'select\' query parameter.", .empty⟩, db, []⟩
  | some sel =>
    if !validId id then
      ⟨⟨500, "Server error: Cast to ObjectId failed", .empty⟩, db, [.taskFindById id]⟩
    else
      match db.tasks.find? (fun t => t.id == id) with
      | none => ⟨⟨404, "Task not found.", .empty⟩, db, [.taskFindById id]⟩
      | some t =>
        ⟨⟨200, "OK", .task (if !sel.isEmpty then sel.projTask t else t)⟩, db, [.taskFindById id]⟩

/-- `PUT /api/tasks/:id` (`routes/tasks.js` lines 221-299).  Reads the
old task, applies the body with `findByIdAndUpdate`, then reconciles
`pendingTasks`: when the assignee changed, a `$pull` from the truthy old
assignee and a `$push` to the truthy new one unless now completed; when
the assignee is unchanged, truthy, and `completed` flipped, a `$pull` on
completion and a `$push` on un-completion; otherwise no user write.  A
`ValidationError` raised by the `runValidators: true` update is caught
and answered with HTTP 400 before any document is written; a
`CastError` on any awaited id cast falls to the catch's 500 branch,
leaving the writes already made in place. -/
def putTaskById (taskId : String) (body : TaskBody) (db : Db) : HResult :=
  if !validId taskId then
    ⟨⟨500, "Server error.", .empty⟩, db, [.taskFindById taskId]⟩
  else
    match db.tasks.find? (fun t => t.id == taskId) with
    | none => ⟨⟨404, "Task not found.", .empty⟩, db, [.taskFindById taskId]⟩
    | some oldTask =>
      if !taskBodyValid body then
        ⟨⟨400, "Validation Error: Task validation failed", .empty⟩, db,
          [.taskFindById taskId, .taskUpdate taskId]⟩
      else
      let upd := applyTaskBody body oldTask
      let db1 := { db with tasks := db.tasks.map (fun t => if t.id == taskId then upd else t) }
      let ops1 := [StoreOp.taskFindById taskId, StoreOp.taskUpdate taskId]
      let oldU := oldTask.assignedUser
      let newU := upd.assignedUser
      if oldU != newU then
        if oldU != "" then
          if !validId oldU then
            ⟨⟨500, "Server error.", .empty⟩, db1, ops1 ++ [.userPull oldU taskId]⟩
          else
            let db2 := dbPullUser oldU taskId db1
            let ops2 := ops1 ++ [StoreOp.userPull oldU taskId]
            if newU != "" && !upd.completed then
              if !validId newU then
                ⟨⟨500, "Server error.", .empty⟩, db2, ops2 ++ [.userPush newU taskId]⟩
              else
                ⟨⟨200, "Task updated!", .task upd⟩, dbPushUser newU taskId db2,
                  ops2 ++ [.userPush newU taskId]⟩
            else
              ⟨⟨200, "Task updated!", .task upd⟩, db2, ops2⟩
        else
          if newU != "" && !upd.completed then
            if !validId newU then
              ⟨⟨500, "Server error.", .empty⟩, db1, ops1 ++ [.userPush newU taskId]⟩
            else
              ⟨⟨200, "Task updated!", .task upd⟩, dbPushUser newU taskId db1,
                ops1 ++ [.userPush newU taskId]⟩
          else
            ⟨⟨200, "Task updated!", .task upd⟩, db1, ops1⟩
      else
        if newU != "" && oldTask.completed != upd.completed then
          if upd.completed then
            if !validId newU then
              ⟨⟨500, "Server error.", .empty⟩, db1, ops1 ++ [.userPull newU taskId]⟩
            else
              ⟨⟨200, "Task updated!", .task upd⟩, dbPullUser newU taskId db1,
                ops1 ++ [.userPull newU taskId]⟩
          else
            if !validId newU then
              ⟨⟨500, "Server error.", .empty⟩, db1, ops1 ++ [.userPush newU taskId]⟩
            else
              ⟨⟨200, "Task updated!", .task upd⟩, dbPushUser newU taskId db1,
                ops1 ++ [.userPush newU taskId]⟩
        else
          ⟨⟨200, "Task updated!", .task upd⟩, db1, ops1⟩

/-- `DELETE /api/tasks/:id` (`routes/tasks.js` lines 315-347).
`findByIdAndDelete`, 404 when nothing matches; when the deleted task's
`assignedUser` is truthy, one `$pull` of the task id from that user's
`pendingTasks`.  This catch too has no `CastError` branch, so a
malformed id yields HTTP 500. -/
def deleteTaskById (id : String) (db : Db) : HResult :=
  if !validId id then
    ⟨⟨500, "Server error: Cast to ObjectId failed", .empty⟩, db, [.taskDelete id]⟩
  else
    match db.tasks.find? (fun t => t.id == id) with
    | none => ⟨⟨404, "Task not found.", .empty⟩, db, [.taskDelete id]⟩
    | some t =>
      let db1 := { db with tasks := db.tasks.filter (fun s => s.id != id) }
      if t.assignedUser != "" then
        if !validId t.assignedUser then
          ⟨⟨500, "Server error: Cast to ObjectId failed", .empty⟩, db1,
            [.taskDelete id, .userPull t.assignedUser t.id]⟩
        else
          ⟨⟨200, "Task deleted!", .task t⟩, dbPullUser t.assignedUser t.id db1,
            [.taskDelete id, .userPull t.assignedUser t.id]⟩
      else
        ⟨⟨200, "Task deleted!", .task t⟩, db1, [.taskDelete id]⟩

/-! Concrete fixtures used by witnesses and counterexamples. -/

/-- A well-formed store identifier (24 hex characters). -/
def uidA : String := "aaaaaaaaaaaaaaaaaaaaaaaa"

/-- A second well-formed store identifier. -/
def uidB : String := "bbbbbbbbbbbbbbbbbbbbbbbb"

/-- A well-formed task identifier. -/
def tid1 : String := "111111111111111111111111"

/-- Another well-formed task identifier. -/
def tid2 : String := "222222222222222222222222"

/-- A third well-formed task identifier. -/
def tid3 : String := "333333333333333333333333"

/-- A throw-away parse function: every string is rejected as malformed
JSON (the witnesses only ever parse malformed input through it). -/
def noParse : String → Option JVal := fun _ => none

/-- A minimal stored task, parameterised by id, assignee and completion. -/
def fixTask (id assignee : String) (c : Bool) : Task :=
  { id := id, name := "t", deadline := 1, description := "", completed := c,
    assignedUser := assignee,
    assignedUserName := if assignee == "" then "unassigned" else "A" }

/-- A minimal stored user. -/
def fixUser (id email : String) (pts : List String) : User :=
  { id := id, name := "u", email := email, pendingTasks := pts, dateCreated := 0 }

/-- A store with 101 tasks, none assigned. -/
def db101 : Db := ⟨[], (List.range 101).map (fun i => fixTask (toString i) "" false)⟩

/-- The `pendingTasks` reconciliation policy of `PUT /api/tasks/:id` in
the words of the specification (spec section 4.3, Update, steps 1-2):
when the assignee changed, remove the task id from the old user when the
old assignment was non-empty, and append it to the new user exactly when
the new assignment is non-empty and the task is not completed after the
update; else, when the assignment is unchanged and non-empty and the
completed flag changed, append on a transition to not-completed and
remove on a transition to completed; in every other case no user write. -/
def specReconcileOps (oldU newU : String) (wasC isC : Bool) (tid : String) : List StoreOp :=
  if oldU ≠ newU then
    (if oldU ≠ "" then [StoreOp.userPull oldU tid] else []) ++
    (if newU ≠ "" ∧ isC = false then [StoreOp.userPush newU tid] else [])
  else if newU ≠ "" ∧ wasC ≠ isC then
    (if isC then [StoreOp.userPull newU tid] else [StoreOp.userPush newU tid])
  else []

/-- Interpretation of one reconciliation write against the store. -/
def applyUserOp (db : Db) (op : StoreOp) : Db :=
  match op with
  | StoreOp.userPull uid tid => dbPullUser uid tid db
  | StoreOp.userPush uid tid => dbPushUser uid tid db
  | _ => db

/-- A create body assigning the new task to user A, not completed. -/
def c3bodyOpen : TaskBody :=
  { name := some "t", deadline := some 1, assignedUser := some uidA }

/-- The same create body with `completed = true`. -/
def c3bodyDone : TaskBody :=
  { name := some "t", deadline := some 1, assignedUser := some uidA, completed := some true }

/-- A create body whose `assignedUser` string cannot be cast to an
ObjectId, so the secondary `$push` is rejected by the store. -/
def c6body : TaskBody :=
  { name := some "t", deadline := some 1, assignedUser := some "u1" }

/-- A store for the user-delete witness: user A holds two pending task
ids, one of the referenced tasks already completed. -/
def dbC1 : Db :=
  ⟨[fixUser uidA "a@x" [tid1, tid2]], [fixTask tid1 uidA true, fixTask tid2 uidA false]⟩

/-- A store for the task-delete witness: task 1 is assigned to user A,
whose pendingTasks also holds an unrelated id. -/
def dbC8 : Db :=
  ⟨[fixUser uidA "a@x" [tid1, tid3]], [fixTask tid1 uidA false]⟩

/-- A store for the task-update witness: task 1 is assigned to user A
and not completed; user B exists with no pending tasks. -/
def dbC2 : Db :=
  ⟨[fixUser uidA "a@x" [tid1], fixUser uidB "b@x" []], [fixTask tid1 uidA false]⟩

/-- A task-update body that reassigns the task to user B. -/
def c2body : TaskBody := { assignedUser := some uidB }

/-- A task-update body that empties the required `name` while
reassigning to user B: the update validators reject it. -/
def c2badBody : TaskBody := { name := some "", assignedUser := some uidB }

/-- C4: `GET /api/users/:id` on the malformed id `"xyz"` answers 404
"User not found." as the claim states, but `GET /api/tasks/:id` on the
same id answers HTTP 500, not 404: the catch of the task handler has no
`CastError` branch (`routes/tasks.js` lines 197-202). -/
theorem C4_invalid_id_divergence :
    (getUserById "xyz" none noParse ⟨[], []⟩).resp
      = ⟨404, "User not found.", Payload.empty⟩ ∧
    (getTaskById "xyz" none noParse ⟨[], []⟩).resp.status = 500 ∧
    (getTaskById "xyz" none noParse ⟨[], []⟩).resp.status ≠ 404 := by
  refine ⟨rfl, rfl, by decide⟩

/-- C5 counterexample: `GET /api/tasks` with the non-numeric
`limit=abc` does not behave as the default limit of 100 — `parseInt`
yields `NaN`, `if (limit)` is falsy, the limit stage is skipped, and all
101 stored tasks come back. -/
theorem C5_counterexample :
    (getTasks none none none none (some "abc") none noParse db101).resp.data
      = Payload.tasks db101.tasks ∧
    100 < db101.tasks.length := by
  refine ⟨rfl, by decide⟩

/-- C7: on both list endpoints, when any of `where`, `sort`, `select` is
present but fails to parse as JSON, the handler answers HTTP 400 and
attempts no store operation at all and leaves the store untouched — even
when `count=true` is also supplied. -/
theorem C7_bad_json_no_store_op (whereP sortP selectP skipP limitP countP : Option String)
    (parse : String → Option JVal) (db : Db)
    (h : jparam parse whereP = none ∨ jparam parse sortP = none ∨ jparam parse selectP = none) :
    ((getUsers whereP sortP selectP skipP limitP countP parse db).resp.status = 400 ∧
     (getUsers whereP sortP selectP skipP limitP countP parse db).ops = [] ∧
     (getUsers whereP sortP selectP skipP limitP countP parse db).db = db) ∧
    ((getTasks whereP sortP selectP skipP limitP countP parse db).resp.status = 400 ∧
     (getTasks whereP sortP selectP skipP limitP countP parse db).ops = [] ∧
     (getTasks whereP sortP selectP skipP limitP countP parse db).db = db) := by
  unfold getUsers getTasks
  cases hw : jparam parse whereP <;> cases hs : jparam parse sortP <;>
    cases hsel : jparam parse selectP <;> simp_all

/-- C7 witness: a request carrying malformed JSON in `where` together
with `count=true` gets HTTP 400 from both endpoints with an empty
operation trace. -/
theorem C7_witness :
    ((getUsers (some "notjson") none none none none (some "true") noParse ⟨[], []⟩).resp.status = 400 ∧
     (getUsers (some "notjson") none none none none (some "true") noParse ⟨[], []⟩).ops = [] ∧
     (getUsers (some "notjson") none none none none (some "true") noParse ⟨[], []⟩).db = ⟨[], []⟩) ∧
    ((getTasks (some "notjson") none none none none (some "true") noParse ⟨[], []⟩).resp.status = 400 ∧
     (getTasks (some "notjson") none none none none (some "true") noParse ⟨[], []⟩).ops = [] ∧
     (getTasks (some "notjson") none none none none (some "true") noParse ⟨[], []⟩).db = ⟨[], []⟩) :=
  C7_bad_json_no_store_op (some "notjson") none none none none (some "true") noParse ⟨[], []⟩
    (Or.inl rfl)

/-- C9: `PUT /api/users/:id` only ever attempts the one
`findByIdAndUpdate` on the addressed id — no task operation and no
`pendingTasks` reconciliation — so for every request body (including one
that overwrites `pendingTasks` directly) the task collection is
unchanged and every user other than the addressed one survives
unmodified. -/
theorem C9_put_user_frame (id : String) (body : UserBody) (db : Db) :
    (putUserById id body db).ops = [StoreOp.userUpdate id] ∧
    (putUserById id body db).db.tasks = db.tasks ∧
    ∀ v ∈ db.users, v.id ≠ id → v ∈ (putUserById id body db).db.users := by
  cases h1 : validId id with
  | false => exact ⟨by simp [putUserById, h1], by simp [putUserById, h1],
      by simp [putUserById, h1]; exact fun v hv _ => hv⟩
  | true =>
    cases h2 : db.users.find? (fun u => u.id == id) with
    | none => exact ⟨by simp [putUserById, h1, h2], by simp [putUserById, h1, h2],
        by simp [putUserById, h1, h2]; exact fun v hv _ => hv⟩
    | some u =>
      cases h3 : db.users.any (fun v => v.id != id && v.email == (applyUserBody body u).email) with
      | true => exact ⟨by simp [putUserById, h1, h2, h3], by simp [putUserById, h1, h2, h3],
          by simp [putUserById, h1, h2, h3]; exact fun v hv _ => hv⟩
      | false =>
        refine ⟨by simp [putUserById, h1, h2, h3], by simp [putUserById, h1, h2, h3],
          fun v hv hne => ?_⟩
        have hgoal : (putUserById id body db).db.users
            = db.users.map (fun v => if v.id == id then applyUserBody body u else v) := by
          simp [putUserById, h1, h2, h3]
        rw [hgoal]
        have hfix : (if v.id == id then applyUserBody body u else v) = v := by
          simp [hne]
        exact hfix ▸ List.mem_map_of_mem _ hv

/-- C9 witness: overwriting the pendingTasks of user A directly leaves
user B untouched and the task collection as it was. -/
theorem C9_witness :
    (putUserById uidA { pendingTasks := some [tid3] }
        ⟨[fixUser uidA "a@x" [], fixUser uidB "b@x" [tid2]], [fixTask tid2 uidB false]⟩).ops
      = [StoreOp.userUpdate uidA] ∧
    (putUserById uidA { pendingTasks := some [tid3] }
        ⟨[fixUser uidA "a@x" [], fixUser uidB "b@x" [tid2]], [fixTask tid2 uidB false]⟩).db.tasks
      = [fixTask tid2 uidB false] ∧
    fixUser uidB "b@x" [tid2] ∈
      (putUserById uidA { pendingTasks := some [tid3] }
        ⟨[fixUser uidA "a@x" [], fixUser uidB "b@x" [tid2]], [fixTask tid2 uidB false]⟩).db.users := by
  have h := C9_put_user_frame uidA { pendingTasks := some [tid3] }
    ⟨[fixUser uidA "a@x" [], fixUser uidB "b@x" [tid2]], [fixTask tid2 uidB false]⟩
  exact ⟨h.1, h.2.1, h.2.2 (fixUser uidB "b@x" [tid2]) (by decide) (by decide)⟩

/-- C10: `POST /api/users` with a `pendingTasks` array in the body (and
valid `name`/`email`, no duplicate email) stores that array verbatim in
the created user; its only store operation is the one `save` — no task
document is read or written to validate the entries, so the mirror
invariant can be broken at creation time. -/
theorem C10_post_user_pendingTasks_verbatim (body : UserBody) (newId : String) (now : Nat)
    (db : Db) (pts : List String)
    (hname : truthyStr body.name = true) (hemail : truthyStr body.email = true)
    (hpts : body.pendingTasks = some pts)
    (hdup : db.users.any (fun v => v.email == (mkUser body newId now).email) = false) :
    (postUsers body newId now db).resp
      = ⟨201, "User created!", .user (mkUser body newId now)⟩ ∧
    (mkUser body newId now).pendingTasks = pts ∧
    (postUsers body newId now db).db.users = db.users ++ [mkUser body newId now] ∧
    (postUsers body newId now db).db.tasks = db.tasks ∧
    (postUsers body newId now db).ops = [StoreOp.userSave newId] := by
  refine ⟨?_, by simp [mkUser, hpts], ?_, ?_, ?_⟩ <;>
    simp [postUsers, hname, hemail, hdup]

/-- C10 witness: creating a user whose body lists two task ids that
belong to no stored task at all still stores them verbatim. -/
theorem C10_witness :
    (postUsers { name := some "u", email := some "c@x", pendingTasks := some [tid1, tid2] }
        uidA 0 ⟨[], []⟩).resp
      = ⟨201, "User created!",
          .user (mkUser { name := some "u", email := some "c@x", pendingTasks := some [tid1, tid2] } uidA 0)⟩ ∧
    (mkUser { name := some "u", email := some "c@x", pendingTasks := some [tid1, tid2] } uidA 0).pendingTasks
      = [tid1, tid2] ∧
    (postUsers { name := some "u", email := some "c@x", pendingTasks := some [tid1, tid2] }
        uidA 0 ⟨[], []⟩).db.users
      = [] ++ [mkUser { name := some "u", email := some "c@x", pendingTasks := some [tid1, tid2] } uidA 0] ∧
    (postUsers { name := some "u", email := some "c@x", pendingTasks := some [tid1, tid2] }
        uidA 0 ⟨[], []⟩).db.tasks = [] ∧
    (postUsers { name := some "u", email := some "c@x", pendingTasks := some [tid1, tid2] }
        uidA 0 ⟨[], []⟩).ops = [StoreOp.userSave uidA] := by
  have h := C10_post_user_pendingTasks_verbatim
    { name := some "u", email := some "c@x", pendingTasks := some [tid1, tid2] }
    uidA 0 ⟨[], []⟩ [tid1, tid2] (by decide) (by decide) rfl (by decide)
  exact h

/-- C3: a successful `POST /api/tasks` appends the new id to the
`pendingTasks` of the assigned user exactly when the saved task has a
non-empty `assignedUser` and `completed = false`; with `completed =
true` (or no assignee) the only store operation is the task save and the
user collection is untouched. -/
theorem C3_post_task_push_exactly_when (body : TaskBody) (newId : String) (db : Db)
    (hname : truthyStr body.name = true) (hdl : truthyNat body.deadline = true)
    (hvalid : (mkTask body newId).assignedUser = "" ∨ validId (mkTask body newId).assignedUser = true) :
    (postTasks body newId false db).resp
      = ⟨201, "Task created!", .task (mkTask body newId)⟩ ∧
    (postTasks body newId false db).db.tasks = db.tasks ++ [mkTask body newId] ∧
    ((mkTask body newId).assignedUser ≠ "" ∧ (mkTask body newId).completed = false →
      (postTasks body newId false db).ops
        = [StoreOp.taskSave newId, StoreOp.userPush (mkTask body newId).assignedUser newId] ∧
      (postTasks body newId false db).db.users
        = db.users.map (fun u => if u.id == (mkTask body newId).assignedUser
            then { u with pendingTasks := u.pendingTasks ++ [newId] } else u)) ∧
    ((mkTask body newId).assignedUser = "" ∨ (mkTask body newId).completed = true →
      (postTasks body newId false db).ops = [StoreOp.taskSave newId] ∧
      (postTasks body newId false db).db.users = db.users) := by
  cases ha : (mkTask body newId).assignedUser == "" with
  | true =>
    have ha2 : (mkTask body newId).assignedUser = "" := by
      exact beq_iff_eq.mp ha
    refine ⟨?_, ?_, ?_, ?_⟩ <;>
      simp [postTasks, hname, hdl, ha, ha2, dbPushUser]
  | false =>
    have ha2 : (mkTask body newId).assignedUser ≠ "" := by
      intro hcontra
      rw [hcontra] at ha
      simp at ha
    have hv : validId (mkTask body newId).assignedUser = true := by
      cases hvalid with
      | inl h => exact absurd h ha2
      | inr h => exact h
    cases hc : (mkTask body newId).completed with
    | false =>
      refine ⟨?_, ?_, ?_, ?_⟩ <;>
        simp [postTasks, hname, hdl, ha, hc, hv, ha2, dbPushUser]
    | true =>
      refine ⟨?_, ?_, ?_, ?_⟩ <;>
        simp [postTasks, hname, hdl, ha, hc, hv, ha2, dbPushUser]

/-- C3 witness: creating an uncompleted task assigned to user A pushes
the new id onto the pendingTasks of A; the same creation with
`completed = true` only saves the task. -/
theorem C3_witness :
    ((postTasks c3bodyOpen tid1 false ⟨[fixUser uidA "a@x" []], []⟩).db.users
      = [fixUser uidA "a@x" [tid1]]) ∧
    ((postTasks c3bodyDone tid1 false ⟨[fixUser uidA "a@x" []], []⟩).ops
      = [StoreOp.taskSave tid1]) := by
  constructor
  · have h := C3_post_task_push_exactly_when c3bodyOpen
      tid1 ⟨[fixUser uidA "a@x" []], []⟩ (by decide) (by decide) (Or.inr (by decide))
    have h2 := (h.2.2.1 ⟨by decide, by decide⟩).2
    rw [h2]; decide
  · have h := C3_post_task_push_exactly_when c3bodyDone
      tid1 ⟨[fixUser uidA "a@x" []], []⟩ (by decide) (by decide) (Or.inr (by decide))
    exact (h.2.2.2 (Or.inr (by decide))).1

/-- C6 counterexample: a task creation whose save succeeds but whose
secondary `pendingTasks` write fails does surface the failure — the
`$push` is awaited inside the `try`, its rejection (here a `CastError`
on the uncastable assignee `"u1"`) lands in the catch, and the client
receives HTTP 500, not the claimed 201.  The task itself stays saved. -/
theorem C6_counterexample :
    (postTasks c6body tid1 false ⟨[], []⟩).resp.status = 500 ∧
    (postTasks c6body tid1 false ⟨[], []⟩).resp.status ≠ 201 ∧
    (postTasks c6body tid1 false ⟨[], []⟩).db.tasks = [mkTask c6body tid1] := by
  refine ⟨by decide, by decide, by decide⟩

/-- C6 amended: when the primary save succeeds, the secondary write is
attempted (non-empty assignee, not completed) and that write fails —
through an uncastable assignee id or any injected store failure — the
failure IS surfaced to the client as HTTP 500, while the task creation
is indeed not rolled back: the saved task stays in the store. -/
theorem C6_secondary_failure_surfaced (body : TaskBody) (newId : String) (pushFails : Bool)
    (db : Db)
    (hname : truthyStr body.name = true) (hdl : truthyNat body.deadline = true)
    (hassigned : (mkTask body newId).assignedUser ≠ "")
    (hopen : (mkTask body newId).completed = false)
    (hfail : validId (mkTask body newId).assignedUser = false ∨ pushFails = true) :
    (postTasks body newId pushFails db).resp.status = 500 ∧
    (postTasks body newId pushFails db).db.tasks = db.tasks ++ [mkTask body newId] := by
  have hfail2 : (!validId (mkTask body newId).assignedUser || pushFails) = true := by
    cases hfail with
    | inl h => simp [h]
    | inr h => simp [h]
  constructor <;> simp [postTasks, hname, hdl, hassigned, hopen, hfail2]

/-- C6 amended witness: the concrete failing creation of the
counterexample, through the amended theorem. -/
theorem C6_witness :
    (postTasks c6body tid1 false ⟨[], []⟩).resp.status = 500 ∧
    (postTasks c6body tid1 false ⟨[], []⟩).db.tasks = [] ++ [mkTask c6body tid1] :=
  C6_secondary_failure_surfaced c6body tid1 false ⟨[], []⟩
    (by decide) (by decide) (by decide) (by decide) (Or.inl (by decide))

/-- C5 amended: `skip` defaults to 0 and `limit` to 0 (users) / 100
(tasks) when absent; a supplied non-numeric `skip` behaves as the
default 0 (the `NaN` is falsy and the stage is skipped); but a supplied
non-numeric `limit` disables the limit stage altogether, which
coincides with the Users default yet diverges from the Tasks default of
100 — `GET /api/tasks` with a non-numeric limit returns every document. -/
theorem C5_skip_limit_policy (skipS limitS : String) (db : Db)
    (parse : String → Option JVal)
    (hskip : jsParseInt skipS = none) (hlimit : jsParseInt limitS = none)
    (hs : skipS ≠ "") (hl : limitS ≠ "") :
    (getUsers none none none none none none parse db).resp.data = .users db.users ∧
    (getTasks none none none none none none parse db).resp.data
      = .tasks (db.tasks.take 100) ∧
    (getUsers none none none (some skipS) (some limitS) none parse db).resp.data
      = .users db.users ∧
    (getTasks none none none (some skipS) (some limitS) none parse db).resp.data
      = .tasks db.tasks := by
  refine ⟨?_, ?_, ?_, ?_⟩ <;>
    simp [getUsers, getTasks, jparam, numParam, applySkip, applyLimit, emptyJObj,
      hskip, hlimit, hs, hl, List.filter_true]

/-- C5 amended witness: with 101 stored tasks, the defaults return 100
of them while `skip=abc&limit=abc` returns all 101. -/
theorem C5_witness :
    (getUsers none none none none none none noParse db101).resp.data
      = .users db101.users ∧
    (getTasks none none none none none none noParse db101).resp.data
      = .tasks (db101.tasks.take 100) ∧
    (getUsers none none none (some "abc") (some "abc") none noParse db101).resp.data
      = .users db101.users ∧
    (getTasks none none none (some "abc") (some "abc") none noParse db101).resp.data
      = .tasks db101.tasks :=
  C5_skip_limit_policy "abc" "abc" db101 noParse rfl rfl (by decide) (by decide)


/-- C1: deleting an existing user with a non-empty (and castable)
`pendingTasks` list removes the user, issues exactly one bulk update over
exactly those task ids — unassigning each such task irrespective of its
`completed` flag — and answers HTTP 200 with the deleted user. -/
theorem C1_delete_user_unassigns (id : String) (db : Db) (u : User)
    (hid : validId id = true)
    (hfind : db.users.find? (fun v => v.id == id) = some u)
    (hne : u.pendingTasks ≠ [])
    (hids : u.pendingTasks.all validId = true) :
    (deleteUserById id db).resp
      = ⟨200, "User deleted! All associated tasks have been unassigned.", .user u⟩ ∧
    (deleteUserById id db).ops
      = [StoreOp.userDelete id, StoreOp.taskUpdateManyUnassign u.pendingTasks] ∧
    (deleteUserById id db).db.users = db.users.filter (fun v => v.id != id) ∧
    (deleteUserById id db).db.tasks
      = db.tasks.map (fun t => if u.pendingTasks.contains t.id
          then { t with assignedUser := "", assignedUserName := "unassigned" } else t) := by
  have hlen : u.pendingTasks.length > 0 := List.length_pos.mpr hne
  refine ⟨?_, ?_, ?_, ?_⟩ <;>
    simp [deleteUserById, hid, hfind, hlen, hids, dbUnassignTasks]

/-- C1 witness: deleting user A, whose pendingTasks are task 1
(already completed) and task 2 (open), unassigns both tasks — the
completed one included — and returns the deleted user. -/
theorem C1_witness :
    (deleteUserById uidA dbC1).resp
      = ⟨200, "User deleted! All associated tasks have been unassigned.",
          .user (fixUser uidA "a@x" [tid1, tid2])⟩ ∧
    (deleteUserById uidA dbC1).ops
      = [StoreOp.userDelete uidA, StoreOp.taskUpdateManyUnassign [tid1, tid2]] ∧
    (deleteUserById uidA dbC1).db.users = [] ∧
    (deleteUserById uidA dbC1).db.tasks = [fixTask tid1 "" true, fixTask tid2 "" false] := by
  have h := C1_delete_user_unassigns uidA dbC1 (fixUser uidA "a@x" [tid1, tid2])
    (by decide) (by decide) (by decide) (by decide)
  refine ⟨h.1, ?_, ?_, ?_⟩
  · rw [h.2.1]; decide
  · rw [h.2.2.1]; decide
  · rw [h.2.2.2]; decide

/-- C8: with a castable id, deleting a task answers 404 when no task
matches; on a match the task is removed, its id is pulled from the
assigned user exactly when the `assignedUser` of the deleted task is
non-empty, and the handler answers HTTP 200 with the deleted task. -/
theorem C8_delete_task_cascade (id : String) (db : Db)
    (hid : validId id = true) :
    (db.tasks.find? (fun t => t.id == id) = none →
      (deleteTaskById id db).resp = ⟨404, "Task not found.", .empty⟩ ∧
      (deleteTaskById id db).db = db) ∧
    (∀ t, db.tasks.find? (fun t => t.id == id) = some t →
      (t.assignedUser = "" ∨ validId t.assignedUser = true) →
      (deleteTaskById id db).resp = ⟨200, "Task deleted!", .task t⟩ ∧
      (deleteTaskById id db).db.tasks = db.tasks.filter (fun s => s.id != id) ∧
      (t.assignedUser ≠ "" →
        (deleteTaskById id db).ops
          = [StoreOp.taskDelete id, StoreOp.userPull t.assignedUser t.id] ∧
        (deleteTaskById id db).db.users
          = db.users.map (fun v => if v.id == t.assignedUser
              then { v with pendingTasks := v.pendingTasks.filter (fun s => s != t.id) } else v)) ∧
      (t.assignedUser = "" →
        (deleteTaskById id db).ops = [StoreOp.taskDelete id] ∧
        (deleteTaskById id db).db.users = db.users)) := by
  constructor
  · intro hnone
    constructor <;> simp [deleteTaskById, hid, hnone]
  · intro t hfind hv
    by_cases ha : t.assignedUser = ""
    · refine ⟨?_, ?_, fun hcontra => absurd ha hcontra, fun _ => ⟨?_, ?_⟩⟩ <;>
        simp [deleteTaskById, hid, hfind, ha]
    · have hvv : validId t.assignedUser = true := hv.resolve_left ha
      refine ⟨?_, ?_, fun _ => ⟨?_, ?_⟩, fun hcontra => absurd hcontra ha⟩ <;>
        simp [deleteTaskById, hid, hfind, ha, hvv, dbPullUser]

/-- C8 witness: deleting task 1, assigned to user A, removes the task
and pulls its id from the pendingTasks of A, leaving the unrelated id in
place. -/
theorem C8_witness :
    (deleteTaskById tid1 dbC8).resp = ⟨200, "Task deleted!", .task (fixTask tid1 uidA false)⟩ ∧
    (deleteTaskById tid1 dbC8).db.tasks = [] ∧
    (deleteTaskById tid1 dbC8).ops
      = [StoreOp.taskDelete tid1, StoreOp.userPull uidA tid1] ∧
    (deleteTaskById tid1 dbC8).db.users = [fixUser uidA "a@x" [tid3]] := by
  have h := (C8_delete_task_cascade tid1 dbC8 (by decide)).2 (fixTask tid1 uidA false)
    (by decide) (Or.inr (by decide))
  have h3 := h.2.2.1 (by decide)
  refine ⟨h.1, ?_, ?_, ?_⟩
  · rw [h.2.1]; decide
  · rw [h3.1]; decide
  · rw [h3.2]; decide

/-- C2: for a task update on an existing task (all involved ids
castable): when the body passes the update validators, the handler
answers HTTP 200 with the post-update task and its user writes are
exactly those of the ordered reconciliation policy `specReconcileOps`
(on an assignee change, a pull from the non-empty old assignee and a
push to the non-empty new assignee unless now completed; on an unchanged
non-empty assignee with a flipped completed flag, a pull on completion
and a push on un-completion; otherwise no user write); when the body
fails validation, the handler answers HTTP 400 and writes nothing — no
task update and no user document. -/
theorem C2_put_task_reconciliation (taskId : String) (body : TaskBody) (db : Db)
    (oldTask : Task)
    (hid : validId taskId = true)
    (hfind : db.tasks.find? (fun t => t.id == taskId) = some oldTask)
    (hold : oldTask.assignedUser = "" ∨ validId oldTask.assignedUser = true)
    (hnew : (applyTaskBody body oldTask).assignedUser = "" ∨
      validId (applyTaskBody body oldTask).assignedUser = true) :
    (taskBodyValid body = true →
      (putTaskById taskId body db).resp
        = ⟨200, "Task updated!", .task (applyTaskBody body oldTask)⟩ ∧
      (putTaskById taskId body db).ops
        = [StoreOp.taskFindById taskId, StoreOp.taskUpdate taskId] ++
          specReconcileOps oldTask.assignedUser (applyTaskBody body oldTask).assignedUser
            oldTask.completed (applyTaskBody body oldTask).completed taskId ∧
      (putTaskById taskId body db).db
        = (specReconcileOps oldTask.assignedUser (applyTaskBody body oldTask).assignedUser
            oldTask.completed (applyTaskBody body oldTask).completed taskId).foldl applyUserOp
            ⟨db.users, db.tasks.map (fun t => if t.id == taskId then applyTaskBody body oldTask else t)⟩) ∧
    (taskBodyValid body = false →
      (putTaskById taskId body db).resp
        = ⟨400, "Validation Error: Task validation failed", .empty⟩ ∧
      (putTaskById taskId body db).db = db ∧
      (putTaskById taskId body db).ops
        = [StoreOp.taskFindById taskId, StoreOp.taskUpdate taskId]) := by
  constructor
  case right =>
    intro hvb
    refine ⟨?_, ?_, ?_⟩ <;> simp [putTaskById, hid, hfind, hvb]
  intro hvb
  by_cases hchg : oldTask.assignedUser = (applyTaskBody body oldTask).assignedUser
  · by_cases hne2 : (applyTaskBody body oldTask).assignedUser = ""
    · refine ⟨?_, ?_, ?_⟩ <;>
        simp [putTaskById, specReconcileOps, applyUserOp, hid, hfind, hvb, hchg, hne2]
    · have hv : validId (applyTaskBody body oldTask).assignedUser = true := hnew.resolve_left hne2
      cases hwc : oldTask.completed <;> cases hic : (applyTaskBody body oldTask).completed <;>
        refine ⟨?_, ?_, ?_⟩ <;>
          simp [putTaskById, specReconcileOps, applyUserOp, hid, hfind, hvb, hchg, hne2, hv,
            hwc, hic, dbPullUser, dbPushUser]
  · by_cases hoe : oldTask.assignedUser = ""
    · by_cases hne2 : (applyTaskBody body oldTask).assignedUser = ""
      · exact absurd (hoe.trans hne2.symm) hchg
      · have hv : validId (applyTaskBody body oldTask).assignedUser = true := hnew.resolve_left hne2
        have hne3 : ("" : String) ≠ (applyTaskBody body oldTask).assignedUser := Ne.symm hne2
        cases hic : (applyTaskBody body oldTask).completed <;>
          refine ⟨?_, ?_, ?_⟩ <;>
            simp [putTaskById, specReconcileOps, applyUserOp, hid, hfind, hvb, hchg, hoe, hne2,
              hne3, hv, hic, dbPushUser]
    · have hvo : validId oldTask.assignedUser = true := hold.resolve_left hoe
      by_cases hne2 : (applyTaskBody body oldTask).assignedUser = ""
      · refine ⟨?_, ?_, ?_⟩ <;>
          simp [putTaskById, specReconcileOps, applyUserOp, hid, hfind, hvb, hchg, hoe, hne2,
            hvo, dbPullUser]
      · have hv : validId (applyTaskBody body oldTask).assignedUser = true := hnew.resolve_left hne2
        cases hic : (applyTaskBody body oldTask).completed <;>
          refine ⟨?_, ?_, ?_⟩ <;>
            simp [putTaskById, specReconcileOps, applyUserOp, hid, hfind, hvb, hchg, hoe, hne2,
              hvo, hv, hic, dbPullUser, dbPushUser]

/-- C2 witness: reassigning the open task 1 from user A to user B pulls
the id from A and pushes it to B, in that order, and answers 200 with
the updated task; the same reassignment with the required name emptied
is rejected with 400 and leaves the store untouched. -/
theorem C2_witness :
    (putTaskById tid1 c2body dbC2).resp
      = ⟨200, "Task updated!", .task (applyTaskBody c2body (fixTask tid1 uidA false))⟩ ∧
    (putTaskById tid1 c2body dbC2).ops
      = [StoreOp.taskFindById tid1, StoreOp.taskUpdate tid1,
         StoreOp.userPull uidA tid1, StoreOp.userPush uidB tid1] ∧
    (putTaskById tid1 c2body dbC2).db.users
      = [fixUser uidA "a@x" [], fixUser uidB "b@x" [tid1]] ∧
    (putTaskById tid1 c2badBody dbC2).resp
      = ⟨400, "Validation Error: Task validation failed", .empty⟩ ∧
    (putTaskById tid1 c2badBody dbC2).db = dbC2 := by
  have h := (C2_put_task_reconciliation tid1 c2body dbC2 (fixTask tid1 uidA false)
    (by decide) (by decide) (Or.inr (by decide)) (Or.inr (by decide))).1 (by decide)
  have hbad := (C2_put_task_reconciliation tid1 c2badBody dbC2 (fixTask tid1 uidA false)
    (by decide) (by decide) (Or.inr (by decide)) (Or.inr (by decide))).2 (by decide)
  refine ⟨h.1, ?_, ?_, hbad.1, hbad.2.1⟩
  · rw [h.2.1]; decide
  · rw [show (putTaskById tid1 c2body dbC2).db.users
        = ((putTaskById tid1 c2body dbC2).db).users from rfl, h.2.2]
    decide

end S2P
